import Mathlib

/-!
Verification of the ruwren safety layer (src/lib.rs): a shallow embedding of
the slot-marshaling API, the foreign-object registry with runtime type
tagging, the foreign-injection path `set_slot_new_foreign`, the
bind-foreign-method callback, the relative-import canonicalizer, and the
error-channel drain performed by `interpret` / `call_handle`.

The embedded Wren VM itself is external C code; its slot store, variable
table and allocator are modelled as explicit state (`VMState`).  Rust raw
pointers that may be null are modelled as `Option`; `any::TypeId` values are
modelled as naturals (distinct types have distinct tags); C function pointers
are modelled as naturals.  The numeric payload of a Num slot is modelled
abstractly as an `Int` since no verified property computes with doubles.
-/

namespace Ruwren

/-- A compile-time type tag, modelling `std::any::TypeId`. -/
abbrev TypeId := Nat

/-- An opaque C function pointer, modelled by an identifier. -/
abbrev FnPtr := Nat

/-- `SlotType` from src/lib.rs: classification of a slot's current value. -/
inductive SlotType where
  | Num
  | Bool
  | List
  | Null
  | String
  | Foreign
  | Unknown
deriving DecidableEq, Repr

/-- `ForeignObject<T>` from src/lib.rs: the VM-heap envelope of a foreign
instance.  `object` is the raw pointer to the boxed native value (`none`
models a null pointer, as left by a zeroed allocation or by the destructor);
`type_id` is the stored compile-time tag. -/
structure ForeignObject where
  object : Option Nat
  type_id : TypeId
deriving DecidableEq, Repr

/-- The value currently held by a Wren slot, as far as the wrapper can
observe it through the C API.  `unknown` covers values (such as class
objects) that `wrenGetSlotType` reports as `WREN_TYPE_UNKNOWN`. -/
inductive WrenValue where
  | num (v : Int)
  | boolean (b : Bool)
  | list
  | null
  | str (bytes : List Nat)
  | foreign (fo : ForeignObject)
  | unknown
deriving DecidableEq, Repr

/-- The classification `wrenGetSlotType` reports for a value, as matched in
`VM::get_slot_type` (src/lib.rs lines 989-1000). -/
def classify : WrenValue → SlotType
  | .num _ => .Num
  | .boolean _ => .Bool
  | .list => .List
  | .null => .Null
  | .str _ => .String
  | .foreign _ => .Foreign
  | .unknown => .Unknown

/-- `FunctionSignature` from src/lib.rs. -/
inductive FunctionSignature where
  | Function (name : String) (arity : Nat)
  | Getter (name : String)
  | Setter (name : String)
deriving DecidableEq, Repr

/-- `FunctionSignature::as_wren_string` (src/lib.rs lines 634-640):
`format!("{}({})", name, vec!["_"; arity].join(","))` for functions, the bare
name for getters, `format!("{}=(_)", name)` for setters. -/
def FunctionSignature.as_wren_string : FunctionSignature → String
  | .Function name arity => name ++ "(" ++ String.intercalate "," (List.replicate arity "_") ++ ")"
  | .Getter name => name
  | .Setter name => name ++ "=(_)"

/-- `MethodPointer` from src/lib.rs. -/
structure MethodPointer where
  is_static : Bool
  signature : FunctionSignature
  pointer : FnPtr
deriving DecidableEq, Repr

/-- `ClassObjectPointers` from src/lib.rs. -/
structure ClassObjectPointers where
  function_pointers : List MethodPointer
deriving DecidableEq, Repr

/-- `RuntimeClass` from src/lib.rs. -/
structure RuntimeClass where
  construct : FnPtr
  destruct : FnPtr
  methods : ClassObjectPointers
  type_id : TypeId
deriving DecidableEq, Repr

/-- `Module` from src/lib.rs; the `HashMap<String, RuntimeClass>` is
modelled as an association list with unique keys, looked up by `List.lookup`. -/
structure Module where
  classes : List (String × RuntimeClass)
deriving DecidableEq, Repr

/-- `ModuleLibrary` from src/lib.rs. -/
structure ModuleLibrary where
  modules : List (String × Module)
deriving DecidableEq, Repr

/-- `ModuleLibrary::get_foreign_class` (src/lib.rs lines 215-217):
`self.modules.get(module).and_then(|md| md.classes.get(class))`. -/
def ModuleLibrary.get_foreign_class (lib : ModuleLibrary) (module cls : String) :
    Option RuntimeClass :=
  (lib.modules.lookup module).bind fun md => md.classes.lookup cls

/-- The `wren_bind_foreign_method` callback (src/lib.rs lines 69-86): with a
library present, look the class up and return the pointer of the first
method entry whose wren signature string and staticness both match;
otherwise `None`. -/
def wren_bind_foreign_method (library : Option ModuleLibrary) (module cls : String)
    (is_static : Bool) (sgn : String) : Option FnPtr :=
  match library with
  | some lib =>
    match lib.get_foreign_class module cls with
    | some rc =>
      (rc.methods.function_pointers.find? fun mp =>
        mp.signature.as_wren_string == sgn && mp.is_static == is_static).map
          fun mp => mp.pointer
    | none => none
  | none => none

/-- The `wren_canonicalize` resolve-module callback (src/lib.rs lines
120-134): a name whose first character is `'@'` is rewritten to
`importer ++ "/" ++ (name without its first character)`; any other name is
returned unchanged. -/
def wren_canonicalize (importer name : String) : String :=
  match name.data with
  | '@' :: rest => importer ++ "/" ++ String.mk rest
  | _ => name

/-- `ForeignSendError` from src/lib.rs. -/
inductive ForeignSendError where
  | NoForeignClass
  | NoWrenClass
  | NoMemory
  | ClassMismatch
deriving DecidableEq, Repr

/-- The VM-side state the wrapper's slot API manipulates through the C
calls, together with the per-VM `UserData` fields the wrapper reads
(`library` is the registry snapshot held in `UserData`).
`slots` is the slot array (`wrenEnsureSlots` only grows `slot_count`, newly
visible slots defaulting to whatever the array holds); `globals` is the
script-level variable table consulted by `wrenGetVariable`, yielding `null`
for an undeclared variable; `alloc_ok` tells whether the next
`wrenSetSlotNewForeign` allocation yields a non-null data pointer. -/
structure VMState where
  slots : Nat → WrenValue
  slot_count : Nat
  globals : String → String → WrenValue
  alloc_ok : Bool
  library : Option ModuleLibrary

/-- Write one slot of the slot array. -/
def setSlot (st : VMState) (slot : Nat) (v : WrenValue) : VMState :=
  { st with slots := fun i => if i = slot then v else st.slots i }

/-- `VM::ensure_slots` (src/lib.rs lines 891-895): `wrenEnsureSlots` makes at
least `count` slots available. -/
def VMState.ensure_slots (st : VMState) (count : Nat) : VMState :=
  { st with slot_count := max st.slot_count count }

/-- `VM::get_slot_type` (src/lib.rs lines 989-1000). -/
def VMState.get_slot_type (st : VMState) (slot : Nat) : SlotType :=
  classify (st.slots slot)

/-- The C call `wrenGetSlotBool`, read only after the wrapper has checked the
classification; on a non-Bool slot its result is never consulted. -/
def wrenGetSlotBool (st : VMState) (slot : Nat) : Bool :=
  match st.slots slot with
  | .boolean b => b
  | _ => false

/-- `VM::get_slot_bool` (src/lib.rs lines 934-942). -/
def VMState.get_slot_bool (st : VMState) (slot : Nat) : Option Bool :=
  if st.get_slot_type slot ≠ SlotType.Bool then none
  else some (wrenGetSlotBool st slot)

/-- The C call `wrenGetSlotDouble`; payload modelled abstractly. -/
def wrenGetSlotDouble (st : VMState) (slot : Nat) : Int :=
  match st.slots slot with
  | .num v => v
  | _ => 0

/-- `VM::get_slot_double` (src/lib.rs lines 944-952). -/
def VMState.get_slot_double (st : VMState) (slot : Nat) : Option Int :=
  if st.get_slot_type slot ≠ SlotType.Num then none
  else some (wrenGetSlotDouble st slot)

/-- The C call `wrenGetSlotBytes`: the byte content of a String slot. -/
def wrenGetSlotBytes (st : VMState) (slot : Nat) : List Nat :=
  match st.slots slot with
  | .str bytes => bytes
  | _ => []

/-- `VM::get_slot_bytes` (src/lib.rs lines 954-973): classification check,
then the pointer walk collecting the bytes. -/
def VMState.get_slot_bytes (st : VMState) (slot : Nat) : Option (List Nat) :=
  if st.get_slot_type slot ≠ SlotType.String then none
  else some (wrenGetSlotBytes st slot)

/-- `VM::get_slot_string` (src/lib.rs lines 975-987): classification check,
then `wrenGetSlotString` + lossy decoding, modelled as the slot's byte
content. -/
def VMState.get_slot_string (st : VMState) (slot : Nat) : Option (List Nat) :=
  if st.get_slot_type slot ≠ SlotType.String then none
  else some (wrenGetSlotBytes st slot)

/-- The C call `wrenGetSlotForeign`: the data pointer of the foreign
envelope when the slot holds a foreign instance, null otherwise. -/
def wrenGetSlotForeign (st : VMState) (slot : Nat) : Option ForeignObject :=
  match st.slots slot with
  | .foreign fo => some fo
  | _ => none

/-- `VM::get_slot_foreign_mut::<T>` (src/lib.rs lines 1048-1064): null-check
the envelope pointer, compare the stored tag against `T`'s tag, and return
`fo.object.as_mut()` — which is `None` when the object pointer is null. -/
def VMState.get_slot_foreign_mut (st : VMState) (tyid : TypeId) (slot : Nat) :
    Option Nat :=
  match wrenGetSlotForeign st slot with
  | some fo => if fo.type_id = tyid then fo.object else none
  | none => none

/-- `VM::get_slot_foreign::<T>` (src/lib.rs lines 1044-1046): the shared
borrow of `get_slot_foreign_mut`. -/
def VMState.get_slot_foreign (st : VMState) (tyid : TypeId) (slot : Nat) :
    Option Nat :=
  st.get_slot_foreign_mut tyid slot

/-- `VM::get_variable` (src/lib.rs lines 1002-1008): `wrenGetVariable` writes
the variable's current value into the slot. -/
def VMState.get_variable (st : VMState) (module name : String) (slot : Nat) :
    VMState :=
  setSlot st slot (st.globals module name)

/-- The C call `wrenSetSlotNewForeign(vm, slot, 0, size)`: when allocation
succeeds it stores a zero-initialized foreign envelope in `slot` (the class
being taken from slot 0) and returns its data pointer; on failure it returns
null and leaves the slots alone. -/
def wrenSetSlotNewForeignRaw (st : VMState) (slot : Nat) : Option Nat × VMState :=
  if st.alloc_ok then (some 1, setSlot st slot (WrenValue.foreign ⟨none, 0⟩))
  else (none, st)

/-- `VM::set_slot_new_foreign` (src/lib.rs lines 1070-1117), step for step:
ensure `slot + 1` slots; look `(module, cls)` up in the library
(`NoForeignClass` on a miss); compare the registered tag with `T`'s tag
(`ClassMismatch` on a difference); load the script-level class variable into
slot 0 and classify it (`NoWrenClass` unless it is `Unknown`, i.e. a class);
allocate the foreign envelope (`NoMemory` on a null data pointer); otherwise
`ptr::write` the envelope holding the boxed object and return the mutable
reference to the object.  The `T` type parameter is represented by its tag
`tyid`, the moved-in object by the address `objv` its box receives. -/
def VMState.set_slot_new_foreign (st : VMState) (module cls : String)
    (tyid : TypeId) (objv : Nat) (slot : Nat) :
    Except ForeignSendError Nat × VMState :=
  let st1 := st.ensure_slots (slot + 1)
  match st1.library.bind fun lib => lib.get_foreign_class module cls with
  | none => (.error .NoForeignClass, st1)
  | some runtime_class =>
    if runtime_class.type_id = tyid then
      let new_obj : ForeignObject := ⟨some objv, tyid⟩
      let st2 := st1.get_variable module cls 0
      match st2.get_slot_type 0 with
      | SlotType.Null => (.error .NoWrenClass, st2)
      | SlotType.Unknown =>
        match wrenSetSlotNewForeignRaw st2 slot with
        | (some _, st3) => (.ok objv, setSlot st3 slot (.foreign new_obj))
        | (none, st3) => (.error .NoMemory, st3)
      | _ => (.error .NoWrenClass, st2)
    else (.error .ClassMismatch, st1)

/-- `WrenError` from src/lib.rs: the events the `wren_error` callback puts
onto the error channel, in emission order. -/
inductive WrenError where
  | Compile (module : String) (line : Int) (message : String)
  | Runtime (message : String)
  | StackTrace (module : String) (line : Int) (message : String)
deriving DecidableEq, Repr

/-- `VMStackFrameError` from src/lib.rs. -/
structure VMStackFrameError where
  module : String
  line : Int
  function : String
deriving DecidableEq, Repr

/-- `VMError` from src/lib.rs. -/
inductive VMError where
  | Compile (module : String) (line : Int) (error : String)
  | Runtime (error : String) (frames : List VMStackFrameError)
deriving DecidableEq, Repr

/-- The status `wrenInterpret` / `wrenCall` report. -/
inductive WrenInterpretResult where
  | Success
  | CompileError
  | RuntimeError
deriving DecidableEq, Repr

/-- The `while let Ok(err) = vm.error_recv.try_recv()` drain loop shared by
`VMWrapper::call_handle` and `VMWrapper::interpret` (src/lib.rs lines
666-676 and 699-709): `error` is overwritten by each `Runtime` event's
payload, each `StackTrace` event is pushed onto `frames`, and a `Compile`
event hits `unreachable!()` (modelled as `none`). -/
def drainRuntimeErrors : List WrenError → String → List VMStackFrameError →
    Option (String × List VMStackFrameError)
  | [], e, fs => some (e, fs)
  | WrenError.Runtime msg :: rest, _, fs => drainRuntimeErrors rest msg fs
  | WrenError.StackTrace m l msg :: rest, e, fs =>
      drainRuntimeErrors rest e (fs ++ [⟨m, l, msg⟩])
  | WrenError.Compile _ _ _ :: _, _, _ => none

/-- `VMWrapper::call_handle` (src/lib.rs lines 660-684) as a function of the
status `wrenCall` returned and of the channel's queued events: success is
`Ok(())`, a compile status is `unreachable!()` (calls never compile,
modelled as `none`), a runtime status drains the channel into
`VMError::Runtime` starting from the empty message and frame list. -/
def call_handle (status : WrenInterpretResult) (channel : List WrenError) :
    Option (Except VMError Unit) :=
  match status with
  | .Success => some (.ok ())
  | .CompileError => none
  | .RuntimeError =>
    (drainRuntimeErrors channel "" []).map fun r =>
      .error (VMError.Runtime r.1 r.2)

/-- `VMWrapper::interpret` (src/lib.rs lines 686-717) as a function of the
status `wrenInterpret` returned and of the channel's queued events: a
compile status reads one event, which must be a `Compile` event
(`unreachable!()` otherwise, modelled as `none`); a runtime status drains the
channel exactly as `call_handle` does. -/
def interpret (status : WrenInterpretResult) (channel : List WrenError) :
    Option (Except VMError Unit) :=
  match status with
  | .Success => some (.ok ())
  | .CompileError =>
    match channel with
    | WrenError.Compile m l msg :: _ => some (.error (VMError.Compile m l msg))
    | _ => none
  | .RuntimeError =>
    (drainRuntimeErrors channel "" []).map fun r =>
      .error (VMError.Runtime r.1 r.2)

/-- Spec-side description: the stack-trace events of the channel, in channel
order, as stack frames. -/
def stackFramesOf (channel : List WrenError) : List VMStackFrameError :=
  channel.filterMap fun e =>
    match e with
    | WrenError.StackTrace m l msg => some ⟨m, l, msg⟩
    | _ => none

/-- Spec-side description: the payload of the last `Runtime` event of the
channel, or the empty string when the channel holds none. -/
def lastRuntimeMessage (channel : List WrenError) : String :=
  ((channel.filterMap fun e =>
    match e with
    | WrenError.Runtime msg => some msg
    | _ => none).getLast?).getD ""

/-- The channel holds no `Compile` event (always true of the events a
runtime-error status leaves queued). -/
def noCompileEvent (channel : List WrenError) : Prop :=
  ∀ m l s, WrenError.Compile m l s ∉ channel

instance (channel : List WrenError) : Decidable (noCompileEvent channel) := by
  unfold noCompileEvent
  induction channel with
  | nil => exact isTrue (by simp)
  | cons e rest ih =>
    cases ih with
    | isTrue h =>
      cases e with
      | Compile m l s =>
        exact isFalse (by intro hall; exact absurd (hall m l s) (by simp))
      | Runtime msg =>
        exact isTrue (by intro m l s; simp [h m l s])
      | StackTrace m0 l0 s0 =>
        exact isTrue (by intro m l s; simp [h m l s])
    | isFalse h =>
      exact isFalse (by
        intro hall
        exact h fun m l s => by
          have := hall m l s
          simp only [List.mem_cons, not_or] at this
          exact this.2)

/-! ### Claim-side descriptions and concrete states used by the theorems -/

/-- Claim-side description: a comma-separated list of exactly `k`
underscores, written out recursively. -/
def commaSeparatedUnderscores : Nat → String
  | 0 => ""
  | 1 => "_"
  | k + 2 => "_," ++ commaSeparatedUnderscores (k + 1)

/-- The tail the `go` accumulator of `String.intercalate` appends:
`k` copies of `",_"`. -/
def commaUnderscoreTail : Nat → String
  | 0 => ""
  | k + 1 => ",_" ++ commaUnderscoreTail k

lemma intercalate_go_replicate (k : Nat) (acc : String) :
    String.intercalate.go acc "," (List.replicate k "_")
      = acc ++ commaUnderscoreTail k := by
  induction k generalizing acc with
  | zero => simp [String.intercalate.go, commaUnderscoreTail, String.append_empty]
  | succ k ih =>
    simp only [List.replicate_succ, String.intercalate.go, commaUnderscoreTail]
    rw [ih]
    rw [String.append_assoc, String.append_assoc, ← String.append_assoc ","]
    have h : ("," ++ "_" : String) = ",_" := by decide
    rw [h]

lemma underscore_append_tail (k : Nat) :
    "_" ++ commaUnderscoreTail k = commaSeparatedUnderscores (k + 1) := by
  induction k with
  | zero => simp [commaUnderscoreTail, commaSeparatedUnderscores, String.append_empty]
  | succ k ih =>
    show "_" ++ (",_" ++ commaUnderscoreTail k) = "_," ++ commaSeparatedUnderscores (k + 1)
    rw [← ih]
    rw [← String.append_assoc, ← String.append_assoc]
    rfl

lemma intercalate_replicate_underscores (k : Nat) :
    String.intercalate "," (List.replicate k "_") = commaSeparatedUnderscores k := by
  cases k with
  | zero => rfl
  | succ k =>
    simp only [List.replicate_succ, String.intercalate]
    rw [intercalate_go_replicate, underscore_append_tail]

/-! ### The claims -/

/-- C5: for every function name `n` and arity `k`, the canonical string of
`Function{name: n, arity: k}` is `n` followed by a parenthesized
comma-separated list of exactly `k` underscores; the canonical string of
`Getter(n)` is `n` itself; the canonical string of `Setter(n)` is `n`
followed by `"=(_)"`; in particular `Function("call", 2)` canonicalizes to
`"call(_,_)"`, `Getter("value")` to `"value"`, and `Setter("value")` to
`"value=(_)"`. -/
theorem C5_canonical_signature_strings :
    ∀ (n : String) (k : Nat),
      (FunctionSignature.Function n k).as_wren_string
          = n ++ "(" ++ commaSeparatedUnderscores k ++ ")"
      ∧ (FunctionSignature.Getter n).as_wren_string = n
      ∧ (FunctionSignature.Setter n).as_wren_string = n ++ "=(_)"
      ∧ (FunctionSignature.Function "call" 2).as_wren_string = "call(_,_)"
      ∧ (FunctionSignature.Getter "value").as_wren_string = "value"
      ∧ (FunctionSignature.Setter "value").as_wren_string = "value=(_)" := by
  intro n k
  refine ⟨?_, rfl, rfl, by decide, rfl, by decide⟩
  simp only [FunctionSignature.as_wren_string, intercalate_replicate_underscores]

/-- C8: the resolve-module callback rewrites a name whose first character is
the relative marker `'@'` to `importer ++ "/" ++ (name minus the marker)`,
and passes every other name through unchanged; the importer argument is
never modified (the callback is a pure function of it). -/
theorem C8_canonicalize_relative_imports :
    ∀ (importer name : String),
      (name.data.head? = some '@' →
        wren_canonicalize importer name
          = importer ++ "/" ++ String.mk name.data.tail)
      ∧ (name.data.head? ≠ some '@' → wren_canonicalize importer name = name) := by
  intro importer name
  rcases hnd : name.data with _ | ⟨c, rest⟩
  · refine ⟨fun h => ?_, fun _ => ?_⟩
    · simp [hnd] at h
    · unfold wren_canonicalize
      rw [hnd]
  · by_cases hc : c = '@'
    · subst hc
      refine ⟨fun _ => ?_, fun h => ?_⟩
      · unfold wren_canonicalize
        rw [hnd]
        rfl
      · simp [hnd] at h
    · refine ⟨fun h => ?_, fun _ => ?_⟩
      · simp [hnd] at h
        exact absurd h hc
      · unfold wren_canonicalize
        rw [hnd]
        split
        · rename_i heq
          rw [List.cons.injEq] at heq
          first
          | exact absurd heq.1.symm hc
          | exact absurd heq.1 hc
        · rfl

/-- C3: every typed slot getter — `get_slot_bool`, `get_slot_double`,
`get_slot_bytes`, `get_slot_string`, and `get_slot_foreign` (with its `_mut`
variant) — returns an empty result on classification mismatch, for every
slot index and every current slot content, rather than reading the slot's
raw value with the wrong shape. -/
theorem C3_typed_getters_check_classification :
    ∀ (st : VMState) (slot : Nat),
      (st.get_slot_type slot ≠ SlotType.Bool → st.get_slot_bool slot = none)
      ∧ (st.get_slot_type slot ≠ SlotType.Num → st.get_slot_double slot = none)
      ∧ (st.get_slot_type slot ≠ SlotType.String → st.get_slot_bytes slot = none)
      ∧ (st.get_slot_type slot ≠ SlotType.String → st.get_slot_string slot = none)
      ∧ (∀ tyid : TypeId, st.get_slot_type slot ≠ SlotType.Foreign →
          st.get_slot_foreign tyid slot = none
          ∧ st.get_slot_foreign_mut tyid slot = none) := by
  intro st slot
  refine ⟨fun h => ?_, fun h => ?_, fun h => ?_, fun h => ?_, fun tyid h => ?_⟩
  · simp [VMState.get_slot_bool, h]
  · simp [VMState.get_slot_double, h]
  · simp [VMState.get_slot_bytes, h]
  · simp [VMState.get_slot_string, h]
  · have hmut : st.get_slot_foreign_mut tyid slot = none := by
      unfold VMState.get_slot_foreign_mut wrenGetSlotForeign
      cases hv : st.slots slot with
      | foreign fo =>
        exact absurd (by simp [VMState.get_slot_type, classify, hv]) h
      | num v => rfl
      | boolean b => rfl
      | list => rfl
      | null => rfl
      | str bytes => rfl
      | unknown => rfl
    exact ⟨by simpa [VMState.get_slot_foreign] using hmut, hmut⟩

/-- C2 (amended): for a slot holding a foreign envelope, the downcast
`get_slot_foreign_mut::<T>` yields a live reference iff the envelope's
stored tag equals `T`'s tag AND the envelope's object pointer is non-null;
`get_slot_foreign` agrees with it, and for any tag other than the stored one
both return nothing. -/
theorem C2_foreign_downcast_tag_check :
    ∀ (st : VMState) (slot : Nat) (fo : ForeignObject) (tyid : TypeId),
      st.slots slot = WrenValue.foreign fo →
      ((∃ v, st.get_slot_foreign_mut tyid slot = some v)
          ↔ (fo.type_id = tyid ∧ fo.object ≠ none))
      ∧ st.get_slot_foreign tyid slot = st.get_slot_foreign_mut tyid slot
      ∧ (fo.type_id ≠ tyid →
          st.get_slot_foreign_mut tyid slot = none
          ∧ st.get_slot_foreign tyid slot = none) := by
  intro st slot fo tyid hslot
  have hraw : wrenGetSlotForeign st slot = some fo := by
    simp [wrenGetSlotForeign, hslot]
  have hmut : st.get_slot_foreign_mut tyid slot
      = if fo.type_id = tyid then fo.object else none := by
    simp [VMState.get_slot_foreign_mut, hraw]
  refine ⟨?_, rfl, fun hne => ?_⟩
  · constructor
    · rintro ⟨v, hv⟩
      rw [hmut] at hv
      by_cases htag : fo.type_id = tyid
      · rw [if_pos htag] at hv
        exact ⟨htag, by simp [hv]⟩
      · rw [if_neg htag] at hv
        exact absurd hv (by simp)
    · rintro ⟨htag, hobj⟩
      rw [hmut, if_pos htag]
      cases hfo : fo.object with
      | none => exact absurd hfo hobj
      | some v => exact ⟨v, rfl⟩
  · have h0 : st.get_slot_foreign_mut tyid slot = none := by
      rw [hmut, if_neg hne]
    exact ⟨h0, by simpa [VMState.get_slot_foreign] using h0⟩

/-- A state whose slot 0 holds a foreign envelope with tag 7 and a null
object pointer (as a zeroed allocation or a finalized instance leaves it,
except that the tag here is a registered one). -/
def nullEnvelopeState : VMState where
  slots := fun i => if i = 0 then WrenValue.foreign ⟨none, 7⟩ else WrenValue.null
  slot_count := 1
  globals := fun _ _ => WrenValue.null
  alloc_ok := true
  library := none

/-- C2 counterexample: slot 0 holds a foreign envelope whose stored tag (7)
equals the requested tag, yet `get_slot_foreign_mut` (and `get_slot_foreign`)
return nothing, because the envelope's object pointer is null — refuting the
claimed "live reference iff the tags agree". -/
theorem C2_counterexample_null_object :
    nullEnvelopeState.slots 0 = WrenValue.foreign ⟨none, 7⟩
    ∧ (ForeignObject.mk none 7).type_id = 7
    ∧ nullEnvelopeState.get_slot_foreign_mut 7 0 = none
    ∧ nullEnvelopeState.get_slot_foreign 7 0 = none := by
  refine ⟨rfl, rfl, rfl, rfl⟩

/-- A state whose slot 0 holds a live foreign envelope with tag 7. -/
def liveEnvelopeState : VMState where
  slots := fun i => if i = 0 then WrenValue.foreign ⟨some 5, 7⟩ else WrenValue.null
  slot_count := 1
  globals := fun _ _ => WrenValue.null
  alloc_ok := true
  library := none

/-- Witness for C2 at a concrete live envelope. -/
theorem C2_foreign_downcast_tag_check_witness :
    liveEnvelopeState.slots 0 = WrenValue.foreign ⟨some 5, 7⟩
    ∧ (((∃ v, liveEnvelopeState.get_slot_foreign_mut 7 0 = some v)
          ↔ ((ForeignObject.mk (some 5) 7).type_id = 7
              ∧ (ForeignObject.mk (some 5) 7).object ≠ none))
        ∧ liveEnvelopeState.get_slot_foreign 7 0
            = liveEnvelopeState.get_slot_foreign_mut 7 0
        ∧ ((ForeignObject.mk (some 5) 7).type_id ≠ 7 →
            liveEnvelopeState.get_slot_foreign_mut 7 0 = none
            ∧ liveEnvelopeState.get_slot_foreign 7 0 = none)) :=
  ⟨rfl, C2_foreign_downcast_tag_check liveEnvelopeState 0 ⟨some 5, 7⟩ 7 rfl⟩

/-- C6: the bind-foreign-method callback returns the function pointer of the
first registered method whose canonical signature string and staticness both
match exactly, and returns none for every combination with no such match —
no library, unregistered module or class, or no matching method entry. -/
theorem C6_bind_foreign_method_first_match :
    ∀ (lib : ModuleLibrary) (module cls : String) (isStatic : Bool)
      (sgn : String) (rc : RuntimeClass),
      wren_bind_foreign_method none module cls isStatic sgn = none
      ∧ (lib.get_foreign_class module cls = none →
          wren_bind_foreign_method (some lib) module cls isStatic sgn = none)
      ∧ (lib.get_foreign_class module cls = some rc →
          (∀ p : FnPtr,
            wren_bind_foreign_method (some lib) module cls isStatic sgn = some p
              ↔ ∃ before mp after,
                  rc.methods.function_pointers = before ++ mp :: after
                  ∧ mp.signature.as_wren_string = sgn
                  ∧ mp.is_static = isStatic
                  ∧ mp.pointer = p
                  ∧ ∀ mp2 ∈ before,
                      ¬(mp2.signature.as_wren_string = sgn
                        ∧ mp2.is_static = isStatic))
          ∧ ((∀ mp ∈ rc.methods.function_pointers,
                ¬(mp.signature.as_wren_string = sgn ∧ mp.is_static = isStatic)) →
              wren_bind_foreign_method (some lib) module cls isStatic sgn
                = none)) := by
  intro lib module cls isStatic sgn rc
  refine ⟨rfl, fun hmiss => ?_, fun hhit => ⟨fun p => ?_, fun hnone => ?_⟩⟩
  · simp [wren_bind_foreign_method, hmiss]
  · rw [wren_bind_foreign_method, hhit]
    rw [Option.map_eq_some']
    constructor
    · rintro ⟨mp, hfind, hptr⟩
      rw [List.find?_eq_some] at hfind
      obtain ⟨hpred, before, after, hsplit, hbefore⟩ := hfind
      simp only [Bool.and_eq_true, beq_iff_eq] at hpred
      refine ⟨before, mp, after, hsplit, hpred.1, hpred.2, hptr, ?_⟩
      intro mp2 hmem hconj
      have := hbefore mp2 hmem
      simp only [Bool.not_eq_eq_eq_not, Bool.not_true, Bool.and_eq_false_iff,
        beq_eq_false_iff_ne] at this
      rcases this with h1 | h2
      · exact h1 hconj.1
      · exact h2 hconj.2
    · rintro ⟨before, mp, after, hsplit, hsgn, hstat, hptr, hbefore⟩
      refine ⟨mp, ?_, hptr⟩
      rw [List.find?_eq_some]
      refine ⟨by simp [hsgn, hstat], before, after, hsplit, ?_⟩
      intro a hmem
      have := hbefore a hmem
      simp only [not_and] at this
      by_cases h1 : a.signature.as_wren_string = sgn
      · simp [h1, this h1]
      · simp [h1]
  · rw [wren_bind_foreign_method, hhit]
    have : rc.methods.function_pointers.find? (fun mp =>
        mp.signature.as_wren_string == sgn && mp.is_static == isStatic) = none := by
      rw [List.find?_eq_none]
      intro mp hmem
      have := hnone mp hmem
      simp only [not_and] at this
      by_cases h1 : mp.signature.as_wren_string = sgn
      · simp [h1, this h1]
      · simp [h1]
    simp [this]

/-! ### Frame lemmas for the foreign-injection path -/

@[simp] lemma ensure_slots_slots (st : VMState) (n : Nat) :
    (st.ensure_slots n).slots = st.slots := rfl

@[simp] lemma ensure_slots_globals (st : VMState) (n : Nat) :
    (st.ensure_slots n).globals = st.globals := rfl

@[simp] lemma ensure_slots_library (st : VMState) (n : Nat) :
    (st.ensure_slots n).library = st.library := rfl

@[simp] lemma ensure_slots_alloc_ok (st : VMState) (n : Nat) :
    (st.ensure_slots n).alloc_ok = st.alloc_ok := rfl

@[simp] lemma get_variable_slots (st : VMState) (m n : String) (s : Nat) :
    (st.get_variable m n s).slots = fun i => if i = s then st.globals m n else st.slots i := rfl

@[simp] lemma get_variable_globals (st : VMState) (m n : String) (s : Nat) :
    (st.get_variable m n s).globals = st.globals := rfl

@[simp] lemma get_variable_library (st : VMState) (m n : String) (s : Nat) :
    (st.get_variable m n s).library = st.library := rfl

@[simp] lemma get_variable_alloc_ok (st : VMState) (m n : String) (s : Nat) :
    (st.get_variable m n s).alloc_ok = st.alloc_ok := rfl

@[simp] lemma setSlot_slots (st : VMState) (s : Nat) (v : WrenValue) :
    (setSlot st s v).slots = fun i => if i = s then v else st.slots i := rfl

@[simp] lemma setSlot_alloc_ok (st : VMState) (s : Nat) (v : WrenValue) :
    (setSlot st s v).alloc_ok = st.alloc_ok := rfl

@[simp] lemma get_slot_type_get_variable_self (st : VMState) (m n : String) (s : Nat) :
    (st.get_variable m n s).get_slot_type s = classify (st.globals m n) := by
  simp [VMState.get_slot_type, VMState.get_variable, setSlot]

/-- C1 (amended): `set_slot_new_foreign` checks in this order — it returns
`NoForeignClass` when `(M, C)` is not registered in the library; otherwise
`ClassMismatch` when the registered class's stored type tag differs from the
tag of `T` (the script variable is not consulted in that case); otherwise it
looks the script-level class variable up into slot 0 and returns
`NoWrenClass` when that slot's classification is anything other than
`Unknown` (in particular `Null`, the undeclared-variable case); otherwise
`NoMemory` when the VM's foreign-slot allocation fails; and otherwise it
constructs the object in slot `s` and returns the mutable reference. -/
theorem C1_set_slot_new_foreign_contract :
    ∀ (st : VMState) (module cls : String) (tyid : TypeId) (objv slot : Nat),
      (st.library.bind (fun lib => lib.get_foreign_class module cls) = none →
        (st.set_slot_new_foreign module cls tyid objv slot).1
          = Except.error ForeignSendError.NoForeignClass)
      ∧ ∀ rc : RuntimeClass,
          st.library.bind (fun lib => lib.get_foreign_class module cls) = some rc →
          (rc.type_id ≠ tyid →
            (st.set_slot_new_foreign module cls tyid objv slot).1
              = Except.error ForeignSendError.ClassMismatch)
          ∧ (rc.type_id = tyid → classify (st.globals module cls) = SlotType.Null →
              (st.set_slot_new_foreign module cls tyid objv slot).1
                = Except.error ForeignSendError.NoWrenClass)
          ∧ (rc.type_id = tyid → classify (st.globals module cls) ≠ SlotType.Null →
              classify (st.globals module cls) ≠ SlotType.Unknown →
              (st.set_slot_new_foreign module cls tyid objv slot).1
                = Except.error ForeignSendError.NoWrenClass)
          ∧ (rc.type_id = tyid → classify (st.globals module cls) = SlotType.Unknown →
              st.alloc_ok = false →
              (st.set_slot_new_foreign module cls tyid objv slot).1
                = Except.error ForeignSendError.NoMemory)
          ∧ (rc.type_id = tyid → classify (st.globals module cls) = SlotType.Unknown →
              st.alloc_ok = true →
              (st.set_slot_new_foreign module cls tyid objv slot).1
                = Except.ok objv
              ∧ ((st.set_slot_new_foreign module cls tyid objv slot).2).slots slot
                  = WrenValue.foreign ⟨some objv, tyid⟩) := by
  intro st module cls tyid objv slot
  constructor
  · intro hmiss
    unfold VMState.set_slot_new_foreign
    simp only [ensure_slots_library]
    rw [hmiss]
  · intro rc hrc
    refine ⟨fun hne => ?_, fun htag hnull => ?_, fun htag hnn hnu => ?_,
      fun htag hunk halloc => ?_, fun htag hunk halloc => ?_⟩
    · unfold VMState.set_slot_new_foreign
      simp only [ensure_slots_library]
      rw [hrc]
      simp [hne]
    · unfold VMState.set_slot_new_foreign
      simp only [ensure_slots_library]
      rw [hrc]
      simp [htag, get_slot_type_get_variable_self, ensure_slots_globals, hnull]
    · unfold VMState.set_slot_new_foreign
      simp only [ensure_slots_library]
      rw [hrc]
      simp only [htag, get_slot_type_get_variable_self,
        ensure_slots_globals, if_pos rfl]
      cases hcl : classify (st.globals module cls) with
      | Null => exact absurd hcl hnn
      | Unknown => exact absurd hcl hnu
      | Num => rfl
      | Bool => rfl
      | List => rfl
      | String => rfl
      | Foreign => rfl
    · unfold VMState.set_slot_new_foreign
      simp only [ensure_slots_library]
      rw [hrc]
      simp only [htag, get_slot_type_get_variable_self, ensure_slots_globals,
        if_pos rfl]
      rw [hunk]
      simp [wrenSetSlotNewForeignRaw, halloc]
    · unfold VMState.set_slot_new_foreign
      simp only [ensure_slots_library]
      rw [hrc]
      simp only [htag, get_slot_type_get_variable_self, ensure_slots_globals,
        if_pos rfl]
      rw [hunk]
      simp [wrenSetSlotNewForeignRaw, halloc, setSlot]

/-- A registered class with stored tag 7 and an empty method table. -/
def sampleRuntimeClass : RuntimeClass where
  construct := 1
  destruct := 2
  methods := ⟨[]⟩
  type_id := 7

/-- A registry holding one module `"main"` with one class `"Foo"` whose
stored tag is 7. -/
def sampleLibrary : ModuleLibrary :=
  ⟨[("main", ⟨[("Foo", sampleRuntimeClass)]⟩)]⟩

/-- A state where `"Foo"` is registered with tag 7 but the script-level
variable `Foo` is declared as a number (classification `Num`), allocation
succeeding. -/
def numVarState : VMState where
  slots := fun _ => WrenValue.null
  slot_count := 0
  globals := fun _ n => if n = "Foo" then WrenValue.num 3 else WrenValue.null
  alloc_ok := true
  library := some sampleLibrary

/-- C1 counterexample: `(main, Foo)` is registered with tag 7 and the
requested tag is 7, the script variable resolves to a `Num` (so it does not
"resolve to Null"), and allocation succeeds — none of the claim's four error
conditions holds, so the claim promises construction in the slot; the code
returns `NoWrenClass` instead. -/
theorem C1_counterexample_declared_non_class :
    (numVarState.library.bind fun lib => lib.get_foreign_class "main" "Foo")
        = some sampleRuntimeClass
    ∧ sampleRuntimeClass.type_id = 7
    ∧ numVarState.globals "main" "Foo" = WrenValue.num 3
    ∧ classify (numVarState.globals "main" "Foo") ≠ SlotType.Null
    ∧ numVarState.alloc_ok = true
    ∧ (numVarState.set_slot_new_foreign "main" "Foo" 7 42 1).1
        = Except.error ForeignSendError.NoWrenClass := by
  refine ⟨rfl, rfl, rfl, by decide, rfl, rfl⟩

/-- C9 (amended): every call to `set_slot_new_foreign` that finds a
registered class with a matching type tag overwrites slot 0 with the result
of looking up the script-level class variable, regardless of the target slot
index and of success or failure — except that when the target slot is 0 and
construction succeeds, slot 0 is then further overwritten with the newly
constructed foreign object; the previous content of slot 0 is never
restored. -/
theorem C9_slot_zero_overwritten :
    ∀ (st : VMState) (module cls : String) (tyid : TypeId) (objv slot : Nat)
      (rc : RuntimeClass),
      st.library.bind (fun lib => lib.get_foreign_class module cls) = some rc →
      rc.type_id = tyid →
      ((st.set_slot_new_foreign module cls tyid objv slot).2).slots 0 =
        if slot = 0 ∧ classify (st.globals module cls) = SlotType.Unknown
            ∧ st.alloc_ok = true
        then WrenValue.foreign ⟨some objv, tyid⟩
        else st.globals module cls := by
  intro st module cls tyid objv slot rc hrc htag
  unfold VMState.set_slot_new_foreign
  simp only [ensure_slots_library]
  rw [hrc]
  simp only [htag, get_slot_type_get_variable_self, ensure_slots_globals,
    if_pos rfl]
  cases hcl : classify (st.globals module cls) with
  | Null => simp [VMState.get_variable, setSlot, hcl]
  | Num => simp [VMState.get_variable, setSlot, hcl]
  | Bool => simp [VMState.get_variable, setSlot, hcl]
  | List => simp [VMState.get_variable, setSlot, hcl]
  | String => simp [VMState.get_variable, setSlot, hcl]
  | Foreign => simp [VMState.get_variable, setSlot, hcl]
  | Unknown =>
    cases halloc : st.alloc_ok with
    | false => simp [wrenSetSlotNewForeignRaw, halloc, VMState.get_variable, setSlot, hcl]
    | true =>
      by_cases hslot : slot = 0
      · subst hslot
        simp [wrenSetSlotNewForeignRaw, halloc, VMState.get_variable, setSlot, hcl]
      · have h0 : ¬((0 : Nat) = slot) := fun h => hslot h.symm
        simp [wrenSetSlotNewForeignRaw, halloc, VMState.get_variable, setSlot,
          hcl, hslot, h0]

/-- A state where the class variable `Foo` is declared as a Wren class
(classification `Unknown`) and allocation succeeds; slot 0 starts as a
number. -/
def declaredVarState : VMState where
  slots := fun _ => WrenValue.num 9
  slot_count := 0
  globals := fun _ n => if n = "Foo" then WrenValue.unknown else WrenValue.null
  alloc_ok := true
  library := some sampleLibrary

/-- Witness for C9 at a concrete state and target slot 1: slot 0 ends up
holding the class-variable lookup result. -/
theorem C9_slot_zero_overwritten_witness :
    (declaredVarState.library.bind fun lib =>
        lib.get_foreign_class "main" "Foo") = some sampleRuntimeClass
    ∧ sampleRuntimeClass.type_id = 7
    ∧ ((declaredVarState.set_slot_new_foreign "main" "Foo" 7 42 1).2).slots 0 =
        if (1 : Nat) = 0
            ∧ classify (declaredVarState.globals "main" "Foo") = SlotType.Unknown
            ∧ declaredVarState.alloc_ok = true
        then WrenValue.foreign ⟨some 42, 7⟩
        else declaredVarState.globals "main" "Foo" :=
  ⟨rfl, rfl,
    C9_slot_zero_overwritten declaredVarState "main" "Foo" 7 42 1
      sampleRuntimeClass rfl rfl⟩

/-- C9 counterexample: with target slot 0 and a successful construction, the
final content of slot 0 is the newly constructed foreign object, not the
result of the class-variable lookup — so "overwrites slot 0 with the result
of looking up the script-level class variable, regardless of the target slot
index and regardless of whether the call succeeds" fails at slot 0. -/
theorem C9_counterexample_slot_zero_success :
    declaredVarState.globals "main" "Foo" = WrenValue.unknown
    ∧ (declaredVarState.set_slot_new_foreign "main" "Foo" 7 42 0).1
        = Except.ok 42
    ∧ ((declaredVarState.set_slot_new_foreign "main" "Foo" 7 42 0).2).slots 0
        = WrenValue.foreign ⟨some 42, 7⟩
    ∧ WrenValue.foreign ⟨some 42, 7⟩ ≠ declaredVarState.globals "main" "Foo" := by
  refine ⟨rfl, rfl, rfl, by decide⟩

/-! ### The error-channel drain -/

lemma getLast?_getD_cons {α} (a e : α) (l : List α) :
    ((a :: l).getLast?).getD e = (l.getLast?).getD a := by
  cases l with
  | nil => rfl
  | cons b t =>
    rw [List.getLast?_cons_cons]
    have h : (b :: t).getLast?.isSome := by simp
    obtain ⟨x, hx⟩ := Option.isSome_iff_exists.mp h
    rw [hx]
    rfl

/-- The payloads of the `Runtime` events of the channel, in order. -/
def runtimeMessages (channel : List WrenError) : List String :=
  channel.filterMap fun ev =>
    match ev with
    | WrenError.Runtime m => some m
    | _ => none

lemma lastRuntimeMessage_eq (channel : List WrenError) :
    lastRuntimeMessage channel = ((runtimeMessages channel).getLast?).getD "" := rfl

lemma noCompileEvent_of_cons {ev : WrenError} {rest : List WrenError}
    (h : noCompileEvent (ev :: rest)) : noCompileEvent rest := by
  intro m l s
  have := h m l s
  simp only [List.mem_cons, not_or] at this
  exact this.2

lemma drainRuntimeErrors_spec (channel : List WrenError) :
    ∀ (e : String) (fs : List VMStackFrameError), noCompileEvent channel →
      drainRuntimeErrors channel e fs =
        some (((runtimeMessages channel).getLast?).getD e,
          fs ++ stackFramesOf channel) := by
  induction channel with
  | nil =>
    intro e fs _
    simp [drainRuntimeErrors, runtimeMessages, stackFramesOf]
  | cons ev rest ih =>
    intro e fs h
    have hrest := noCompileEvent_of_cons h
    cases ev with
    | Compile m l s => exact absurd (List.mem_cons_self _ _) (h m l s)
    | Runtime msg =>
      rw [drainRuntimeErrors, ih msg fs hrest]
      simp only [runtimeMessages, stackFramesOf, List.filterMap_cons]
      rw [getLast?_getD_cons]
    | StackTrace m l s =>
      rw [drainRuntimeErrors, ih e (fs ++ [VMStackFrameError.mk m l s]) hrest]
      simp [runtimeMessages, stackFramesOf, List.filterMap_cons]

/-- C7 (amended): whenever `interpret` or `call_handle` reports a runtime
error, the returned `VMError::Runtime` carries exactly the stack-trace
events of the error channel, in the order the VM emitted them
(outer-to-inner); the list is non-empty precisely when the VM emitted at
least one stack-trace event — the wrapper itself does not guarantee
non-emptiness. -/
theorem C7_runtime_error_frames_in_emission_order :
    ∀ channel : List WrenError, noCompileEvent channel →
      call_handle WrenInterpretResult.RuntimeError channel
          = some (Except.error (VMError.Runtime (lastRuntimeMessage channel)
              (stackFramesOf channel)))
      ∧ interpret WrenInterpretResult.RuntimeError channel
          = some (Except.error (VMError.Runtime (lastRuntimeMessage channel)
              (stackFramesOf channel)))
      ∧ (stackFramesOf channel ≠ [] ↔
          ∃ m l s, WrenError.StackTrace m l s ∈ channel) := by
  intro channel h
  have hdrain := drainRuntimeErrors_spec channel "" [] h
  refine ⟨?_, ?_, ?_⟩
  · rw [call_handle, hdrain]
    rw [lastRuntimeMessage_eq]
    simp
  · rw [interpret, hdrain]
    rw [lastRuntimeMessage_eq]
    simp
  · constructor
    · intro hne
      by_contra hex
      push_neg at hex
      apply hne
      rw [stackFramesOf, List.filterMap_eq_nil_iff]
      intro ev hmem
      cases ev with
      | Compile m l s => rfl
      | Runtime m => rfl
      | StackTrace m l s => exact absurd hmem (hex m l s)
    · rintro ⟨m, l, s, hmem⟩ hnil
      rw [stackFramesOf, List.filterMap_eq_nil_iff] at hnil
      have := hnil _ hmem
      simp at this

/-- Witness channel for C7: one runtime event followed by one stack-trace
event. -/
def sampleChannelA : List WrenError :=
  [WrenError.Runtime "boom", WrenError.StackTrace "main" 1 "fn"]

/-- Witness for C7 at a concrete channel. -/
theorem C7_runtime_error_frames_in_emission_order_witness :
    noCompileEvent sampleChannelA
    ∧ (call_handle WrenInterpretResult.RuntimeError sampleChannelA
          = some (Except.error (VMError.Runtime (lastRuntimeMessage sampleChannelA)
              (stackFramesOf sampleChannelA)))
        ∧ interpret WrenInterpretResult.RuntimeError sampleChannelA
            = some (Except.error (VMError.Runtime (lastRuntimeMessage sampleChannelA)
                (stackFramesOf sampleChannelA)))
        ∧ (stackFramesOf sampleChannelA ≠ [] ↔
            ∃ m l s, WrenError.StackTrace m l s ∈ sampleChannelA)) :=
  ⟨by decide, C7_runtime_error_frames_in_emission_order sampleChannelA (by decide)⟩

/-- C7 counterexample: a runtime-error status whose channel carries a
runtime message but no stack-trace event produces a `VMError::Runtime` with
an EMPTY frame list — refuting the claim that the stack-frame list is always
non-empty. -/
theorem C7_counterexample_empty_frames :
    call_handle WrenInterpretResult.RuntimeError [WrenError.Runtime "boom"]
        = some (Except.error (VMError.Runtime "boom" []))
    ∧ interpret WrenInterpretResult.RuntimeError [WrenError.Runtime "boom"]
        = some (Except.error (VMError.Runtime "boom" [])) :=
  ⟨rfl, rfl⟩

/-- C10: when `interpret` or `call_handle` drains the error channel after a
runtime-error status, the resulting message is the payload of the LAST
`Runtime` event on the channel (earlier `Runtime` payloads are discarded),
the empty string when the channel holds no `Runtime` event, and the frames
list is exactly the `StackTrace` events in channel order. -/
theorem C10_runtime_drain_last_message :
    ∀ channel : List WrenError, noCompileEvent channel →
      interpret WrenInterpretResult.RuntimeError channel
          = some (Except.error (VMError.Runtime (lastRuntimeMessage channel)
              (stackFramesOf channel)))
      ∧ call_handle WrenInterpretResult.RuntimeError channel
          = interpret WrenInterpretResult.RuntimeError channel
      ∧ (runtimeMessages channel = [] → lastRuntimeMessage channel = "")
      ∧ ∀ pre m post, channel = pre ++ WrenError.Runtime m :: post →
          (∀ m2, WrenError.Runtime m2 ∉ post) →
          lastRuntimeMessage channel = m := by
  intro channel h
  have hdrain := drainRuntimeErrors_spec channel "" [] h
  refine ⟨?_, ?_, ?_, ?_⟩
  · rw [interpret, hdrain]
    rw [lastRuntimeMessage_eq]
    simp
  · rw [call_handle, interpret]
  · intro hmsg
    rw [lastRuntimeMessage_eq, hmsg]
    rfl
  · intro pre m post hsplit hpost
    have hpostnil : runtimeMessages post = [] := by
      rw [runtimeMessages, List.filterMap_eq_nil_iff]
      intro ev hmem
      cases ev with
      | Compile m2 l2 s2 => rfl
      | StackTrace m2 l2 s2 => rfl
      | Runtime m2 => exact absurd hmem (hpost m2)
    have hcalc : runtimeMessages (pre ++ WrenError.Runtime m :: post)
        = runtimeMessages pre ++ m :: runtimeMessages post := by
      simp [runtimeMessages, List.filterMap_append, List.filterMap_cons]
    rw [lastRuntimeMessage_eq, hsplit, hcalc, hpostnil, List.getLast?_concat]
    rfl

/-- Witness channel for C10: two runtime events, the first discarded. -/
def sampleChannelB : List WrenError :=
  [WrenError.Runtime "first", WrenError.Runtime "second"]

/-- Witness for C10 at a concrete channel with two runtime events. -/
theorem C10_runtime_drain_last_message_witness :
    noCompileEvent sampleChannelB
    ∧ (interpret WrenInterpretResult.RuntimeError sampleChannelB
          = some (Except.error (VMError.Runtime (lastRuntimeMessage sampleChannelB)
              (stackFramesOf sampleChannelB)))
        ∧ call_handle WrenInterpretResult.RuntimeError sampleChannelB
            = interpret WrenInterpretResult.RuntimeError sampleChannelB
        ∧ (runtimeMessages sampleChannelB = []
            → lastRuntimeMessage sampleChannelB = "")
        ∧ ∀ pre m post, sampleChannelB = pre ++ WrenError.Runtime m :: post →
            (∀ m2, WrenError.Runtime m2 ∉ post) →
            lastRuntimeMessage sampleChannelB = m) :=
  ⟨by decide, C10_runtime_drain_last_message sampleChannelB (by decide)⟩

end Ruwren
